import Mathlib

/-!
Verification development for the MasterMind trading core: a shallow
embedding of the Renko brick engine (`RenkoChart`), the pattern detector
(`PatternDetector`) and the risk governor (`RiskManager`), translated from
the C++ sources, together with theorems settling the behavioural claims
about them.  Prices and monetary quantities are modelled as rationals,
C++ `int` counters as integers, and each mutating method as a pure
function on an explicit state record.  Timestamps, logging and locking
are omitted: no claim below depends on them.
-/

namespace MasterMind

/-- One Renko brick / the in-progress brick.  Mirrors `struct RenkoBrick`
(open, close, high, low, isUp, completionPercent); the timestamp field is
dropped as no claim inspects it. -/
structure RenkoBrick where
  open_ : ℚ
  close : ℚ
  high : ℚ
  low : ℚ
  isUp : Bool
  completionPercent : ℚ
deriving Repr, DecidableEq

/-- `RenkoBrick()` default constructor: all prices 0, `isUp   = true`,
`completionPercent = 0`. -/
def RenkoBrick.deflt : RenkoBrick :=
  { open_ := 0, close := 0, high := 0, low := 0, isUp := true, completionPercent := 0 }

/-- `RenkoBrick(o, c, ts, up)` constructor: `high = max(o,c)`,
`low = min(o,c)`, `completionPercent = 1.0`. -/
def RenkoBrick.mk4 (o c : ℚ) (up : Bool) : RenkoBrick :=
  { open_ := o, close := c, high := max o c, low := min o c, isUp := up,
    completionPercent := 1 }

/-- State of one `RenkoChart` (brick engine).  Mirrors the fields of the
C++ class that the algorithms read or write; the mutex, symbol and
timestamps are omitted. -/
structure RenkoChart where
  brickSize : ℚ
  tickValue : ℚ
  maxBricks : ℕ
  bricks : List RenkoBrick
  currentBrick : RenkoBrick
  currentBrickInit : Bool
  lastPrice : ℚ
  highestPrice : ℚ
  lowestPrice : ℚ
deriving Repr, DecidableEq

/-- `RenkoChart(symbol, brickSize, maxBricks)` constructor:
`tickValue_ = 0.0001`, empty series, uninitialised current brick. -/
def mkChart (brickSize : ℚ) (maxBricks : ℕ) : RenkoChart :=
  { brickSize := brickSize, tickValue := 1 / 10000, maxBricks := maxBricks,
    bricks := [], currentBrick := RenkoBrick.deflt, currentBrickInit := false,
    lastPrice := 0, highestPrice := 0, lowestPrice := 0 }

/-- `RenkoChart::maintainMaxBricks`: pop the oldest brick while the series
holds more than `maxBricks` bricks. -/
def maintainMaxBricks (m : ℕ) : List RenkoBrick → List RenkoBrick
  | [] => []
  | b :: l => if m < (b :: l).length then maintainMaxBricks m l else b :: l

/-- `RenkoChart::finalizeBrick`: push the brick, reset the current brick to
a fresh one opening at the finalized close (the C++ assigns `open`,
`close` and `completionPercent` on a default-constructed `RenkoBrick`, so
`isUp` keeps its default `true`), reset the price trackers, and trim the
series. -/
def finalizeBrick (s : RenkoChart) (brick : RenkoBrick) : RenkoChart :=
  let cur : RenkoBrick :=
    { RenkoBrick.deflt with open_ := brick.close, close := brick.close,
                            completionPercent := 0 }
  { s with bricks := maintainMaxBricks s.maxBricks (s.bricks ++ [brick]),
           currentBrick := cur,
           highestPrice := brick.close, lowestPrice := brick.close }

/-- `RenkoChart::updateCurrentBrick`.  With an empty series the reference
level is the current brick's open; otherwise it is the last finalized
close.  A single `if`/`else if` finalizes at most one brick per call; the
remaining branch rewrites the current brick's direction and completion
(the non-empty branch compares `abs(upDistance) > abs(downDistance)` and
clamps the completion to [0,1], exactly as the C++ does). -/
def updateCurrentBrick (s : RenkoChart) (price : ℚ) : RenkoChart :=
  match s.bricks.getLast? with
  | none =>
      let o := s.currentBrick.open_
      if price ≥ o + s.brickSize then
        finalizeBrick s (RenkoBrick.mk4 o (o + s.brickSize) true)
      else if price ≤ o - s.brickSize then
        finalizeBrick s (RenkoBrick.mk4 o (o - s.brickSize) false)
      else
        let upDistance := price - o
        let downDistance := o - price
        if upDistance > downDistance then
          { s with currentBrick :=
              { s.currentBrick with isUp := true,
                                    completionPercent := upDistance / s.brickSize } }
        else
          { s with currentBrick :=
              { s.currentBrick with isUp := false,
                                    completionPercent := downDistance / s.brickSize } }
  | some last =>
      let lastClose := last.close
      if price ≥ lastClose + s.brickSize then
        finalizeBrick s (RenkoBrick.mk4 lastClose (lastClose + s.brickSize) true)
      else if price ≤ lastClose - s.brickSize then
        finalizeBrick s (RenkoBrick.mk4 lastClose (lastClose - s.brickSize) false)
      else
        let upDistance := price - lastClose
        let downDistance := lastClose - price
        let cur :=
          if |upDistance| > |downDistance| then
            { s.currentBrick with isUp := true,
                                  completionPercent := upDistance / s.brickSize }
          else
            { s.currentBrick with isUp := false,
                                  completionPercent := |downDistance| / s.brickSize }
        { s with currentBrick :=
            { cur with completionPercent := max 0 (min 1 cur.completionPercent) } }

/-- `RenkoChart::initializeCurrentBrick`: seed the current brick at the
first price (`isUp = true`, zero completion). -/
def initCurrentBrick (s : RenkoChart) (price : ℚ) : RenkoChart :=
  let cb : RenkoBrick :=
    { open_ := price, close := price, high := price, low := price,
      isUp := true, completionPercent := 0 }
  { s with currentBrick := cb, highestPrice := price, lowestPrice := price,
           currentBrickInit := true }

/-- `RenkoChart::addPrice`: drop non-positive prices, seed on the first
call, afterwards update the high/low trackers and run
`updateCurrentBrick`. -/
def addPrice (s : RenkoChart) (price : ℚ) : RenkoChart :=
  if price ≤ 0 then s
  else
    let s := { s with lastPrice := price }
    if ¬ s.currentBrickInit then initCurrentBrick s price
    else
      let s := { s with highestPrice := max s.highestPrice price,
                        lowestPrice := min s.lowestPrice price }
      updateCurrentBrick s price

/-- Feed a list of prices to a fresh chart. -/
def runPrices (b : ℚ) (m : ℕ) (ps : List ℚ) : RenkoChart :=
  ps.foldl addPrice (mkChart b m)

/-- `RenkoChart::getBricks(count)`: all bricks when `count` is 0 or at
least the series length, otherwise the last `count`. -/
def getBricks (s : RenkoChart) (count : ℕ) : List RenkoBrick :=
  if count = 0 ∨ s.bricks.length ≤ count then s.bricks
  else s.bricks.drop (s.bricks.length - count)

/-- `RenkoChart::getLastNBricks` forwards to `getBricks`. -/
def getLastNBricks (s : RenkoChart) (n : ℕ) : List RenkoBrick :=
  getBricks s n

/-- `RenkoChart::getNextUpBrickLevel`. -/
def getNextUpBrickLevel (s : RenkoChart) : ℚ :=
  match s.bricks.getLast? with
  | none => s.lastPrice + s.brickSize
  | some last => last.close + s.brickSize

/-- `RenkoChart::getNextDownBrickLevel`. -/
def getNextDownBrickLevel (s : RenkoChart) : ℚ :=
  match s.bricks.getLast? with
  | none => s.lastPrice - s.brickSize
  | some last => last.close - s.brickSize

/-- `OrderSide`. -/
inductive OrderSide where
  | BUY
  | SELL
deriving Repr, DecidableEq

/-- `RenkoChart::calculateSetup1EntryPrice`. -/
def calculateSetup1EntryPrice (s : RenkoChart) (side : OrderSide) (tickBuffer : ℤ) : ℚ :=
  let basePrice := if side = OrderSide.BUY then getNextUpBrickLevel s
                   else getNextDownBrickLevel s
  let tickAdjustment := (tickBuffer : ℚ) * s.tickValue
  if side = OrderSide.BUY then basePrice + tickAdjustment
  else basePrice - tickAdjustment

/-- `RenkoChart::calculateStopLoss`. -/
def calculateStopLoss (s : RenkoChart) (side : OrderSide) (tickBuffer : ℤ) : ℚ :=
  match s.bricks.getLast? with
  | none => s.lastPrice
  | some last =>
      let stopLevel := if side = OrderSide.BUY then last.close - s.brickSize
                       else last.close + s.brickSize
      let tickAdjustment := (tickBuffer : ℚ) * s.tickValue
      if side = OrderSide.BUY then stopLevel - tickAdjustment
      else stopLevel + tickAdjustment

/-- `RenkoChart::isUpBrickForming`: current brick is up with positive
completion. -/
def isUpBrickForming (s : RenkoChart) : Bool :=
  s.currentBrick.isUp && decide (0 < s.currentBrick.completionPercent)

/-- The reference close an incoming price is measured against: the current
brick's open while no brick is finalized, the last finalized close
afterwards. -/
def referenceClose (s : RenkoChart) : ℚ :=
  match s.bricks.getLast? with
  | none => s.currentBrick.open_
  | some last => last.close

/-- `PatternType`. -/
inductive PatternType where
  | SETUP_1_CONSECUTIVE
  | SETUP_2_GREEN_RED_GREEN
  | NONE
deriving Repr, DecidableEq

/-- `PatternResult`: detection outcome (symbol, timestamps and statistics
omitted). -/
structure PatternResult where
  type : PatternType
  confidence : ℚ
  suggestedSide : OrderSide
  suggestedEntry : ℚ
  suggestedStop : ℚ
  bricks : List RenkoBrick
deriving Repr, DecidableEq

/-- A freshly default-constructed `PatternResult` with `type` set to
`NONE`, as both detectors build before any check. -/
def PatternResult.none_ : PatternResult :=
  { type := PatternType.NONE, confidence := 0, suggestedSide := OrderSide.BUY,
    suggestedEntry := 0, suggestedStop := 0, bricks := [] }

/-- `PatternDetector` configuration state (per-symbol tracking and
statistics omitted; no claim reads them). -/
structure PatternDetector where
  minConfidence : ℚ
  pbThreshold : ℚ
  tickBuffer : ℤ
  setup1Enabled : Bool
  setup2Enabled : Bool
deriving Repr, DecidableEq

/-- `PatternDetector()` constructor: `minConfidence_ = 0.7`,
threshold 0.75, tick buffer 2, both setups enabled.  (`pbThreshold`
models the C++ member holding the 0.75 completion threshold for the
in-progress brick.) -/
def mkPatternDetector : PatternDetector :=
  { minConfidence := 7 / 10, pbThreshold := 3 / 4, tickBuffer := 2,
    setup1Enabled := true, setup2Enabled := true }

/-- `PatternDetector::detectSetup1Pattern`: needs at least 3 of the last 5
bricks; checks that the bricks at positions `size-3` and `size-2` of that
window are both down and that the current brick is up with completion at
least the threshold; on match fills confidence 0.8, side BUY, and the
Setup-1 entry/stop prices. -/
def detectSetup1Pattern (pd : PatternDetector) (chart : RenkoChart) : PatternResult :=
  let recentBricks := getLastNBricks chart 5
  if recentBricks.length < 3 then PatternResult.none_
  else
    let hasConsecutiveDown :=
      !(recentBricks.getD (recentBricks.length - 3) RenkoBrick.deflt).isUp &&
      !(recentBricks.getD (recentBricks.length - 2) RenkoBrick.deflt).isUp
    let currentBrick := chart.currentBrick
    let hasPartUp := currentBrick.isUp &&
      decide (currentBrick.completionPercent ≥ pd.pbThreshold)
    if hasConsecutiveDown && hasPartUp then
      { type := PatternType.SETUP_1_CONSECUTIVE, confidence := 4 / 5,
        suggestedSide := OrderSide.BUY,
        suggestedEntry := calculateSetup1EntryPrice chart OrderSide.BUY pd.tickBuffer,
        suggestedStop := calculateStopLoss chart OrderSide.BUY pd.tickBuffer,
        bricks := recentBricks }
    else PatternResult.none_

/-- `PatternDetector::detectSetup2Pattern`: needs at least 3 of the last 5
bricks; checks Up, Down, Up at positions `size-3 .. size-1` and that the
current brick's completion reaches the threshold (direction not checked);
on match fills confidence 0.75 and side BUY. -/
def detectSetup2Pattern (pd : PatternDetector) (chart : RenkoChart) : PatternResult :=
  let recentBricks := getLastNBricks chart 5
  if recentBricks.length < 3 then PatternResult.none_
  else
    let hasGreenRedGreen :=
      (recentBricks.getD (recentBricks.length - 3) RenkoBrick.deflt).isUp &&
      !(recentBricks.getD (recentBricks.length - 2) RenkoBrick.deflt).isUp &&
      (recentBricks.getD (recentBricks.length - 1) RenkoBrick.deflt).isUp
    let currentBrick := chart.currentBrick
    let isPartiallyFormed :=
      decide (currentBrick.completionPercent ≥ pd.pbThreshold)
    if hasGreenRedGreen && isPartiallyFormed then
      { type := PatternType.SETUP_2_GREEN_RED_GREEN, confidence := 3 / 4,
        suggestedSide := OrderSide.BUY,
        suggestedEntry := calculateSetup1EntryPrice chart OrderSide.BUY pd.tickBuffer,
        suggestedStop := calculateStopLoss chart OrderSide.BUY pd.tickBuffer,
        bricks := recentBricks }
    else PatternResult.none_

/-- `RiskStatus`. -/
inductive RiskStatus where
  | NORMAL
  | WARNING
  | LIMIT_REACHED
  | PAPER_MODE
deriving Repr, DecidableEq

/-- `RiskParameters` (C++ `int` fields modelled as `ℤ`). -/
structure RiskParameters where
  dailyRiskPercent : ℚ
  maxDrawdownPercent : ℚ
  consecutiveLossLimit : ℤ
  capitalUtilization : ℚ
  ordersPerCounter : ℤ
  minLotSize : ℚ
  paperTradingMode : Bool
deriving Repr, DecidableEq

/-- `RiskParameters()` defaults: 1% daily risk, 5% max drawdown, loss
limit 2, 10 orders per counter, min lot 0.01, live mode. -/
def RiskParameters.deflt : RiskParameters :=
  { dailyRiskPercent := 1 / 100, maxDrawdownPercent := 1 / 20,
    consecutiveLossLimit := 2, capitalUtilization := 1,
    ordersPerCounter := 10, minLotSize := 1 / 100, paperTradingMode := false }

/-- `Order` as the risk engine sees it: `validateOrder`,
`addOrderToCounter` and `recordTrade` never read its fields, so only the
fields a caller may care about are kept. -/
structure Order where
  price : ℚ
  quantity : ℚ
deriving Repr, DecidableEq

/-- `AccountInfo` (fields the risk engine reads). -/
structure AccountInfo where
  balance : ℚ
  equity : ℚ
  margin : ℚ
  freeMargin : ℚ
deriving Repr, DecidableEq

/-- `Position` (opaque to the risk engine: `validateOrder` and
`updateRiskStatus` ignore the positions vector). -/
structure Position where
  quantity : ℚ
deriving Repr, DecidableEq

/-- `TradingSignal` fields read by `calculatePositionSize`. -/
structure TradingSignal where
  entryPrice : ℚ
  stopLoss : ℚ
deriving Repr, DecidableEq

/-- `InstrumentSpec` fields read by `calculatePositionSize`. -/
structure InstrumentSpec where
  tickValue : ℚ
deriving Repr, DecidableEq

/-- `TradingCounter` (timestamps and capital fields kept where
constructed; C++ `int` counters as `ℤ`). -/
structure TradingCounter where
  counterNumber : ℤ
  ordersCount : ℤ
  orders : List Order
  initialCapital : ℚ
  currentCapital : ℚ
  totalPnL : ℚ
  totalCharges : ℚ
  isComplete : Bool
deriving Repr, DecidableEq

/-- `TradingCounter()` default constructor. -/
def TradingCounter.deflt : TradingCounter :=
  { counterNumber := 0, ordersCount := 0, orders := [], initialCapital := 0,
    currentCapital := 0, totalPnL := 0, totalCharges := 0, isComplete := false }

/-- Mutable state of `RiskManager` (mutexes and timestamps omitted). -/
structure RiskManager where
  params : RiskParameters
  currentStatus : RiskStatus
  paperMode : Bool
  emergencyStop : Bool
  equityHighWaterMark : ℚ
  currentDrawdown : ℚ
  maxDrawdown : ℚ
  dailyPnL : ℚ
  dailyRiskUsed : ℚ
  consecutiveLosses : ℤ
  consecutiveWins : ℤ
  maxConsecutiveLosses : ℤ
  totalTrades : ℤ
  profitableTrades : ℤ
  currentCounter : TradingCounter
  completedCounters : List TradingCounter
deriving Repr, DecidableEq

/-- `RiskManager()` constructor: `NORMAL` status, live mode, no stop, all
counters zero, default parameters, default current counter. -/
def mkRiskManager : RiskManager :=
  { params := RiskParameters.deflt, currentStatus := RiskStatus.NORMAL,
    paperMode := false, emergencyStop := false, equityHighWaterMark := 0,
    currentDrawdown := 0, maxDrawdown := 0, dailyPnL := 0, dailyRiskUsed := 0,
    consecutiveLosses := 0, consecutiveWins := 0, maxConsecutiveLosses := 0,
    totalTrades := 0, profitableTrades := 0,
    currentCounter := TradingCounter.deflt, completedCounters := [] }

/-- `RiskManager::initialize(params)`: store the parameters and copy the
paper-trading flag. -/
def initRM (s : RiskManager) (params : RiskParameters) : RiskManager :=
  { s with params := params, paperMode := params.paperTradingMode }

/-- `RiskManager::updateRiskParameters`. -/
def updateRiskParameters (s : RiskManager) (params : RiskParameters) : RiskManager :=
  { s with params := params }

/-- `RiskManager::calculatePositionSize`: risk amount is
`equity * dailyRiskPercent`; zero when the stop distance is zero;
otherwise the raw size is floored at `minLotSize` and then capped at 10%
of equity (in that order). -/
def calculatePositionSize (s : RiskManager) (signal : TradingSignal)
    (account : AccountInfo) (instrument : InstrumentSpec) : ℚ :=
  let riskAmount := account.equity * s.params.dailyRiskPercent
  let stopDistance := |signal.entryPrice - signal.stopLoss|
  if stopDistance ≤ 0 then 0
  else
    let positionSize := riskAmount / (stopDistance * instrument.tickValue)
    let positionSize := max positionSize s.params.minLotSize
    let positionSize := min positionSize (account.equity * (1 / 10))
    positionSize

/-- `RiskManager::isWithinDailyRiskLimit` (the order argument is unused in
the source). -/
def isWithinDailyRiskLimit (s : RiskManager) (account : AccountInfo) : Bool :=
  decide (s.dailyRiskUsed < account.equity * s.params.dailyRiskPercent)

/-- `RiskManager::isWithinDrawdownLimit`. -/
def isWithinDrawdownLimit (s : RiskManager) : Bool :=
  decide (s.currentDrawdown < s.params.maxDrawdownPercent)

/-- `RiskManager::validateOrder`: reject on emergency stop, exhausted
daily risk, or excessive drawdown; otherwise approve.  The C++ method is
`const` (the positions vector is ignored), which the pure return type
makes explicit. -/
def validateOrder (s : RiskManager) (_order : Order) (account : AccountInfo)
    (_positions : List Position) : Bool :=
  if s.emergencyStop then false
  else if ¬ isWithinDailyRiskLimit s account then false
  else if ¬ isWithinDrawdownLimit s then false
  else true

/-- `RiskManager::shouldSwitchToPaperMode`. -/
def shouldSwitchToPaperMode (s : RiskManager) : Bool :=
  decide (s.consecutiveLosses ≥ s.params.consecutiveLossLimit)

/-- `RiskManager::switchToPaperMode`: unconditionally sets paper mode and
`PAPER_MODE` status. -/
def switchToPaperMode (s : RiskManager) : RiskManager :=
  { s with paperMode := true, currentStatus := RiskStatus.PAPER_MODE }

/-- `RiskManager::switchToLiveMode` (does not touch the status). -/
def switchToLiveMode (s : RiskManager) : RiskManager :=
  { s with paperMode := false }

/-- `RiskManager::isPaperMode`. -/
def isPaperMode (s : RiskManager) : Bool :=
  s.paperMode

/-- `RiskManager::recordTrade`: bump the totals; a win resets the loss
streak, a loss bumps it, resets wins, refreshes the maximum streak, and
auto-switches to paper mode once the streak reaches the limit (if not
already in paper mode). -/
def recordTrade (s : RiskManager) (profitable : Bool) : RiskManager :=
  let s := { s with totalTrades := s.totalTrades + 1 }
  if profitable then
    { s with consecutiveWins := s.consecutiveWins + 1, consecutiveLosses := 0,
             profitableTrades := s.profitableTrades + 1 }
  else
    let s := { s with consecutiveLosses := s.consecutiveLosses + 1,
                      consecutiveWins := 0,
                      maxConsecutiveLosses :=
                        max s.maxConsecutiveLosses (s.consecutiveLosses + 1) }
    if shouldSwitchToPaperMode s && !s.paperMode then switchToPaperMode s else s

/-- `RiskManager::resetConsecutiveCount`. -/
def resetConsecutiveCount (s : RiskManager) : RiskManager :=
  { s with consecutiveLosses := 0, consecutiveWins := 0 }

/-- `RiskManager::performDailyReset` (timestamp omitted). -/
def performDailyReset (s : RiskManager) : RiskManager :=
  { s with dailyPnL := 0, dailyRiskUsed := 0 }

/-- `RiskManager::enableEmergencyStop`: set the flag and force
`LIMIT_REACHED`, unconditionally. -/
def enableEmergencyStop (s : RiskManager) : RiskManager :=
  { s with emergencyStop := true, currentStatus := RiskStatus.LIMIT_REACHED }

/-- `RiskManager::disableEmergencyStop` (only clears the flag). -/
def disableEmergencyStop (s : RiskManager) : RiskManager :=
  { s with emergencyStop := false }

/-- `RiskManager::calculateDrawdown`: refresh the high-water mark, then
(if it is positive) the current and maximum drawdown. -/
def calculateDrawdown (s : RiskManager) (currentEquity : ℚ) : RiskManager :=
  let s := if currentEquity > s.equityHighWaterMark
           then { s with equityHighWaterMark := currentEquity } else s
  if s.equityHighWaterMark > 0 then
    let dd := (s.equityHighWaterMark - currentEquity) / s.equityHighWaterMark
    { s with currentDrawdown := dd, maxDrawdown := max s.maxDrawdown dd }
  else s

/-- `RiskManager::updateRiskStatus`: recompute the drawdown, then pick the
status with priority emergency stop > paper mode > drawdown warning
(beyond 80% of the limit) > normal. -/
def updateRiskStatus (s : RiskManager) (account : AccountInfo)
    (_positions : List Position) : RiskManager :=
  let s := calculateDrawdown s account.equity
  if s.emergencyStop then { s with currentStatus := RiskStatus.LIMIT_REACHED }
  else if s.paperMode then { s with currentStatus := RiskStatus.PAPER_MODE }
  else if s.currentDrawdown > s.params.maxDrawdownPercent * (4 / 5) then
    { s with currentStatus := RiskStatus.WARNING }
  else { s with currentStatus := RiskStatus.NORMAL }

/-- `RiskManager::getCurrentRiskStatus`. -/
def getCurrentRiskStatus (s : RiskManager) : RiskStatus :=
  s.currentStatus

/-- `RiskManager::completeCounter`: mark the current counter complete and
archive a copy into the completed list. -/
def completeCounter (s : RiskManager) : RiskManager :=
  let cc := { s.currentCounter with isComplete := true }
  { s with currentCounter := cc, completedCounters := s.completedCounters ++ [cc] }

/-- `RiskManager::startNewCounter`: only when no order has been added yet
or the current counter is complete, replace it by a fresh counter
numbered `completedCounters.size() + 1`. -/
def startNewCounter (s : RiskManager) : RiskManager :=
  if s.currentCounter.isComplete || s.currentCounter.ordersCount == 0 then
    { s with currentCounter :=
        { TradingCounter.deflt with
            counterNumber := (s.completedCounters.length : ℤ) + 1 } }
  else s

/-- `RiskManager::addOrderToCounter`: append the order, bump the count,
and complete the counter once the count reaches `ordersPerCounter`. -/
def addOrderToCounter (s : RiskManager) (order : Order) : RiskManager :=
  let cc := { s.currentCounter with orders := s.currentCounter.orders ++ [order],
                                    ordersCount := s.currentCounter.ordersCount + 1 }
  let s := { s with currentCounter := cc }
  if cc.ordersCount ≥ s.params.ordersPerCounter then completeCounter s else s

/-- `RiskManager::isCounterComplete`. -/
def isCounterComplete (s : RiskManager) : Bool :=
  s.currentCounter.isComplete

/-- One mutating `RiskManager` call other than `disableEmergencyStop`
(the only method that clears the emergency-stop flag). -/
inductive RiskEvent where
  | initRM (params : RiskParameters)
  | updateRiskParameters (params : RiskParameters)
  | recordTrade (profitable : Bool)
  | resetConsecutiveCount
  | performDailyReset
  | switchToPaperMode
  | switchToLiveMode
  | enableEmergencyStop
  | calculateDrawdown (equity : ℚ)
  | updateRiskStatus (account : AccountInfo) (positions : List Position)
  | startNewCounter
  | addOrderToCounter (order : Order)
  | completeCounter
deriving Repr, DecidableEq

/-- Apply one `RiskEvent` to a `RiskManager` state. -/
def riskStep (s : RiskManager) : RiskEvent → RiskManager
  | RiskEvent.initRM p => initRM s p
  | RiskEvent.updateRiskParameters p => updateRiskParameters s p
  | RiskEvent.recordTrade b => recordTrade s b
  | RiskEvent.resetConsecutiveCount => resetConsecutiveCount s
  | RiskEvent.performDailyReset => performDailyReset s
  | RiskEvent.switchToPaperMode => switchToPaperMode s
  | RiskEvent.switchToLiveMode => switchToLiveMode s
  | RiskEvent.enableEmergencyStop => enableEmergencyStop s
  | RiskEvent.calculateDrawdown q => calculateDrawdown s q
  | RiskEvent.updateRiskStatus a ps => updateRiskStatus s a ps
  | RiskEvent.startNewCounter => startNewCounter s
  | RiskEvent.addOrderToCounter o => addOrderToCounter s o
  | RiskEvent.completeCounter => completeCounter s

/-- Apply a sequence of `RiskEvent`s. -/
def riskRun (s : RiskManager) (evs : List RiskEvent) : RiskManager :=
  evs.foldl riskStep s

/-! ### Helper lemmas about the brick engine -/

theorem maintainMaxBricks_eq_self {m : ℕ} {l : List RenkoBrick}
    (h : l.length ≤ m) : maintainMaxBricks m l = l := by
  cases l with
  | nil => rfl
  | cons b t =>
      unfold maintainMaxBricks
      rw [if_neg (by exact Nat.not_lt.mpr h)]

theorem maintainMaxBricks_eq_drop (m : ℕ) :
    ∀ l : List RenkoBrick, ∃ n, maintainMaxBricks m l = l.drop n := by
  intro l
  induction l with
  | nil => exact ⟨0, rfl⟩
  | cons b t ih =>
      unfold maintainMaxBricks
      by_cases h : m < (b :: t).length
      · obtain ⟨n, hn⟩ := ih
        exact ⟨n + 1, by rw [if_pos h, hn]; rfl⟩
      · exact ⟨0, by rw [if_neg h, List.drop_zero]⟩

theorem referenceClose_fields (s : RenkoChart) (lp hp lo : ℚ) :
    referenceClose { s with lastPrice := lp, highestPrice := hp, lowestPrice := lo }
      = referenceClose s := rfl

theorem addPrice_of_init (s : RenkoChart) (price : ℚ)
    (hp : 0 < price) (hinit : s.currentBrickInit = true) :
    addPrice s price =
      updateCurrentBrick
        { s with lastPrice := price,
                 highestPrice := max s.highestPrice price,
                 lowestPrice := min s.lowestPrice price } price := by
  unfold addPrice
  rw [if_neg (not_le.mpr hp)]
  simp only [hinit, Bool.true_eq_false, not_true_eq_false, if_neg, ite_false,
    not_false_eq_true]

theorem updateCurrentBrick_up (s : RenkoChart) (price : ℚ)
    (h : price ≥ referenceClose s + s.brickSize) :
    updateCurrentBrick s price =
      finalizeBrick s
        (RenkoBrick.mk4 (referenceClose s) (referenceClose s + s.brickSize) true) := by
  unfold updateCurrentBrick referenceClose at *
  cases hL : s.bricks.getLast? with
  | none => rw [hL] at h; dsimp only at h ⊢; rw [if_pos h]
  | some last => rw [hL] at h; dsimp only at h ⊢; rw [if_pos h]

theorem updateCurrentBrick_down (s : RenkoChart) (price : ℚ)
    (hb : 0 < s.brickSize)
    (h : price ≤ referenceClose s - s.brickSize) :
    updateCurrentBrick s price =
      finalizeBrick s
        (RenkoBrick.mk4 (referenceClose s) (referenceClose s - s.brickSize) false) := by
  have hnot : ¬ price ≥ referenceClose s + s.brickSize := by
    intro hge
    have : referenceClose s + s.brickSize ≤ referenceClose s - s.brickSize :=
      le_trans hge h
    linarith
  unfold updateCurrentBrick referenceClose at *
  cases hL : s.bricks.getLast? with
  | none => rw [hL] at h hnot; dsimp only at h hnot ⊢; rw [if_neg hnot, if_pos h]
  | some last => rw [hL] at h hnot; dsimp only at h hnot ⊢; rw [if_neg hnot, if_pos h]

theorem finalizeBrick_bricks (s : RenkoChart) (brick : RenkoBrick)
    (h : s.bricks.length < s.maxBricks) :
    (finalizeBrick s brick).bricks = s.bricks ++ [brick] := by
  unfold finalizeBrick
  exact maintainMaxBricks_eq_self (by simpa using h)

/-! ### C1: bricks finalized by one `addPrice` call -/

/-- C1 counterexample: on a fresh chart with brick size 1 seeded at price
100, a single `addPrice 102` (a move of `k = 2` brick-widths from the
reference) finalizes only one brick, not the two the claim requires. -/
theorem C1_counterexample :
    (runPrices 1 1000 [100, 102]).bricks.length = 1 ∧
    ¬ (runPrices 1 1000 [100, 102]).bricks.length = 2 := by
  norm_num [runPrices, addPrice, initCurrentBrick, updateCurrentBrick,
    finalizeBrick, maintainMaxBricks, mkChart, RenkoBrick.deflt, RenkoBrick.mk4]

/-- C1 (amended): with a seeded reference, a single `addPrice` whose
positive price sits exactly `k ≥ 1` brick-widths above or below the
reference close finalizes exactly ONE brick `{reference, reference ± b}`
in the direction of the move (the brick-formation code is an `if`, not a
loop, so the remaining `k − 1` widths produce no further bricks in that
call). -/
theorem C1_single_call_one_brick (s : RenkoChart) (price : ℚ) (k : ℕ) (dir : Bool)
    (hinit : s.currentBrickInit = true) (hb : 0 < s.brickSize) (hk : 1 ≤ k)
    (hp : 0 < price) (hcap : s.bricks.length < s.maxBricks)
    (hprice : price = referenceClose s +
      (if dir then (k : ℚ) else -(k : ℚ)) * s.brickSize) :
    (addPrice s price).bricks =
      s.bricks ++ [RenkoBrick.mk4 (referenceClose s)
        (referenceClose s + (if dir then s.brickSize else -s.brickSize)) dir] := by
  have hk1 : (1 : ℚ) ≤ (k : ℚ) := by exact_mod_cast hk
  have h1 := addPrice_of_init s price hp hinit
  rw [h1]
  cases dir with
  | true =>
      rw [if_pos rfl] at hprice
      have hup : price ≥ referenceClose s + s.brickSize := by
        rw [hprice]; nlinarith
      rw [updateCurrentBrick_up _ price (by exact hup)]
      rw [if_pos rfl]
      exact finalizeBrick_bricks _ _ (by exact hcap)
  | false =>
      rw [if_neg (by simp)] at hprice
      have hdown : price ≤ referenceClose s - s.brickSize := by
        rw [hprice]; nlinarith
      rw [updateCurrentBrick_down _ price (by exact hb) (by exact hdown)]
      have hrw : referenceClose s + (if false = true then s.brickSize
          else -s.brickSize) = referenceClose s - s.brickSize := by
        rw [if_neg (by simp)]; ring
      rw [hrw]
      exact finalizeBrick_bricks _ _ (by exact hcap)

/-- C1 witness: the amended theorem applied to the concrete chart of the
counterexample (seed 100, brick size 1, price 102, `k = 2`, up). -/
theorem C1_single_call_one_brick_witness :
    (addPrice (addPrice (mkChart 1 1000) 100) 102).bricks =
      (addPrice (mkChart 1 1000) 100).bricks ++ [RenkoBrick.mk4 100 101 true] := by
  have h := C1_single_call_one_brick (addPrice (mkChart 1 1000) 100) 102 2 true
    (by norm_num [addPrice, mkChart, initCurrentBrick])
    (by norm_num [addPrice, mkChart, initCurrentBrick])
    (by norm_num) (by norm_num) (by norm_num [addPrice, mkChart, initCurrentBrick])
    (by norm_num [addPrice, mkChart, initCurrentBrick, referenceClose])
  rw [h]
  norm_num [addPrice, mkChart, initCurrentBrick, referenceClose, RenkoBrick.mk4]

/-! ### C9: brick geometry invariant -/

/-- The two series invariants of C9: every finalized brick spans exactly
`b`, and consecutive bricks are contiguous. -/
def brickInv (b : ℚ) (l : List RenkoBrick) : Prop :=
  (∀ brick ∈ l, |brick.close - brick.open_| = b) ∧
  List.Chain' (fun x y => y.open_ = x.close) l

theorem brickInv_maintain {b : ℚ} {l : List RenkoBrick} (m : ℕ)
    (h : brickInv b l) : brickInv b (maintainMaxBricks m l) := by
  obtain ⟨n, hn⟩ := maintainMaxBricks_eq_drop m l
  rw [hn]
  exact ⟨fun brick hb => h.1 brick (List.drop_subset n l hb),
         h.2.suffix (List.drop_suffix n l)⟩

theorem brickInv_finalize {b : ℚ} (s : RenkoChart) (c2 : ℚ) (up : Bool)
    (hinv : brickInv b s.bricks)
    (habs : |c2 - referenceClose s| = b) :
    brickInv b (finalizeBrick s (RenkoBrick.mk4 (referenceClose s) c2 up)).bricks := by
  unfold finalizeBrick
  apply brickInv_maintain
  constructor
  · intro brick hmem
    rcases List.mem_append.mp hmem with h | h
    · exact hinv.1 brick h
    · have : brick = RenkoBrick.mk4 (referenceClose s) c2 up := by simpa using h
      subst this
      simpa [RenkoBrick.mk4] using habs
  · rw [List.chain'_append]
    refine ⟨hinv.2, List.chain'_singleton _, ?_⟩
    intro x hx y hy
    have hx' : s.bricks.getLast? = some x := Option.mem_def.mp hx
    have hy' : RenkoBrick.mk4 (referenceClose s) c2 up = y := by
      simpa using hy
    subst hy'
    show (RenkoBrick.mk4 (referenceClose s) c2 up).open_ = x.close
    unfold referenceClose RenkoBrick.mk4
    rw [hx']

theorem updateCurrentBrick_mid (s : RenkoChart) (price : ℚ)
    (h1 : ¬ price ≥ referenceClose s + s.brickSize)
    (h2 : ¬ price ≤ referenceClose s - s.brickSize) :
    (updateCurrentBrick s price).bricks = s.bricks := by
  unfold updateCurrentBrick referenceClose at *
  cases hL : s.bricks.getLast? with
  | none =>
      rw [hL] at h1 h2
      dsimp only at h1 h2 ⊢
      rw [if_neg h1, if_neg h2]
      split <;> rfl
  | some last =>
      rw [hL] at h1 h2
      dsimp only at h1 h2 ⊢
      rw [if_neg h1, if_neg h2]

theorem updateCurrentBrick_brickSize (s : RenkoChart) (p : ℚ) :
    (updateCurrentBrick s p).brickSize = s.brickSize := by
  unfold updateCurrentBrick
  cases hL : s.bricks.getLast? <;> dsimp only <;> (repeat' split) <;> rfl

theorem addPrice_brickSize (s : RenkoChart) (p : ℚ) :
    (addPrice s p).brickSize = s.brickSize := by
  unfold addPrice
  split
  · rfl
  · dsimp only
    split
    · rfl
    · rw [updateCurrentBrick_brickSize]

theorem brickInv_update {b : ℚ} (hb : 0 < b) (t : RenkoChart) (price : ℚ)
    (hs : t.brickSize = b) (hinv : brickInv b t.bricks) :
    brickInv b (updateCurrentBrick t price).bricks := by
  by_cases hcond1 : price ≥ referenceClose t + t.brickSize
  · rw [updateCurrentBrick_up t price hcond1]
    have habs : |referenceClose t + t.brickSize - referenceClose t| = b := by
      rw [hs]; simp [abs_of_pos hb]
    exact brickInv_finalize t _ _ hinv habs
  · by_cases hcond2 : price ≤ referenceClose t - t.brickSize
    · rw [updateCurrentBrick_down t price (by rw [hs]; exact hb) hcond2]
      have habs : |referenceClose t - t.brickSize - referenceClose t| = b := by
        rw [hs]; simp [abs_of_pos hb]
      exact brickInv_finalize t _ _ hinv habs
    · rw [updateCurrentBrick_mid t price hcond1 hcond2]
      exact hinv

theorem brickInv_addPrice {b : ℚ} (hb : 0 < b) (s : RenkoChart) (price : ℚ)
    (hs : s.brickSize = b) (hinv : brickInv b s.bricks) :
    brickInv b (addPrice s price).bricks := by
  unfold addPrice
  split
  · exact hinv
  · dsimp only
    split
    · exact hinv
    · exact brickInv_update hb _ price hs hinv

theorem brickInv_foldl {b : ℚ} (hb : 0 < b) :
    ∀ (ps : List ℚ) (s : RenkoChart), s.brickSize = b → brickInv b s.bricks →
      brickInv b (ps.foldl addPrice s).bricks := by
  intro ps
  induction ps with
  | nil => intro s _ hinv; exact hinv
  | cons p t ih =>
      intro s hs hinv
      exact ih (addPrice s p) (by rw [addPrice_brickSize]; exact hs)
        (brickInv_addPrice hb s p hs hinv)

/-- C9: for any positive prices fed to a fresh chart with positive brick
size `b`, every finalized brick spans exactly `b` (`|close − open| = b`)
and consecutive finalized bricks are contiguous
(`brick[i+1].open = brick[i].close`). -/
theorem C9_brick_geometry (b : ℚ) (m : ℕ) (ps : List ℚ)
    (hb : 0 < b) (_hpos : ∀ p ∈ ps, 0 < p) :
    (∀ brick ∈ (runPrices b m ps).bricks, |brick.close - brick.open_| = b) ∧
    List.Chain' (fun x y => y.open_ = x.close) (runPrices b m ps).bricks := by
  have h := brickInv_foldl hb ps (mkChart b m) rfl
    ⟨by intro brick hmem; simp [mkChart] at hmem, by simp [mkChart]⟩
  exact h

/-- C9 witness: the invariant instantiated on the concrete run
`b = 1`, prices `[100, 102, 99]`. -/
theorem C9_brick_geometry_witness :
    (∀ brick ∈ (runPrices 1 1000 [100, 102, 99]).bricks,
        |brick.close - brick.open_| = 1) ∧
    List.Chain' (fun x y => y.open_ = x.close)
      (runPrices 1 1000 [100, 102, 99]).bricks :=
  C9_brick_geometry 1 1000 [100, 102, 99] (by norm_num) (by norm_num)

/-! ### C10: the direction of the in-progress brick -/

/-- C10 counterexample: after `[100, 101]` one brick is finalized and the
current brick still carries the default `isUp = true`; an `addPrice 0`
call is silently dropped (finalizes nothing, state unchanged) and leaves
`isUp = true`, so not literally every non-finalizing `addPrice` call
leaves `isUp == false`. -/
theorem C10_counterexample :
    1 ≤ (runPrices 1 1000 [100, 101]).bricks.length ∧
    (addPrice (runPrices 1 1000 [100, 101]) 0).bricks =
      (runPrices 1 1000 [100, 101]).bricks ∧
    (addPrice (runPrices 1 1000 [100, 101]) 0).currentBrick.isUp = true := by
  norm_num [runPrices, addPrice, initCurrentBrick, updateCurrentBrick,
    finalizeBrick, maintainMaxBricks, mkChart, RenkoBrick.deflt, RenkoBrick.mk4]

theorem updateCurrentBrick_mid_isUp (t : RenkoChart) (price : ℚ)
    (last : RenkoBrick) (hL : t.bricks.getLast? = some last)
    (h1 : ¬ price ≥ last.close + t.brickSize)
    (h2 : ¬ price ≤ last.close - t.brickSize) :
    (updateCurrentBrick t price).currentBrick.isUp = false := by
  unfold updateCurrentBrick
  rw [hL]
  dsimp only
  rw [if_neg h1, if_neg h2]
  have habs : ¬ (|price - last.close| > |last.close - price|) := by
    rw [abs_sub_comm]; exact lt_irrefl _
  rw [if_neg habs]

/-- Chart-state shape preserved by `addPrice` from a fresh chart: before
seeding there are no bricks, and the current brick can be up only while
its completion is still 0 or no brick is finalized yet. -/
def chartOk (s : RenkoChart) : Prop :=
  (s.currentBrickInit = false → s.bricks.getLast? = none) ∧
  (s.currentBrick.isUp = true →
    s.currentBrick.completionPercent = 0 ∨ s.bricks.getLast? = none)

theorem chartOk_update (t : RenkoChart) (price : ℚ)
    (hinit : t.currentBrickInit = true) : chartOk (updateCurrentBrick t price) := by
  have hfin : ∀ brick : RenkoBrick, chartOk (finalizeBrick t brick) := by
    intro brick
    refine ⟨?_, fun _ => Or.inl rfl⟩
    intro hf
    have hf' : t.currentBrickInit = false := hf
    rw [hinit] at hf'
    exact Bool.noConfusion hf'
  unfold updateCurrentBrick
  cases hL : t.bricks.getLast? with
  | none =>
      dsimp only
      split
      · exact hfin _
      · split
        · exact hfin _
        · split
          · refine ⟨?_, fun _ => Or.inr hL⟩
            intro hf
            have hf' : t.currentBrickInit = false := hf
            rw [hinit] at hf'
            exact Bool.noConfusion hf'
          · refine ⟨?_, ?_⟩
            · intro hf
              have hf' : t.currentBrickInit = false := hf
              rw [hinit] at hf'
              exact Bool.noConfusion hf'
            · intro hup
              exact Bool.noConfusion (show (false : Bool) = true from hup)
  | some last =>
      dsimp only
      split
      · exact hfin _
      · split
        · exact hfin _
        · split
          · rename_i habs
            rw [abs_sub_comm] at habs
            exact absurd habs (lt_irrefl _)
          · refine ⟨?_, ?_⟩
            · intro hf
              have hf' : t.currentBrickInit = false := hf
              rw [hinit] at hf'
              exact Bool.noConfusion hf'
            · intro hup
              exact Bool.noConfusion (show (false : Bool) = true from hup)

theorem chartOk_addPrice (s : RenkoChart) (price : ℚ)
    (h : chartOk s) : chartOk (addPrice s price) := by
  unfold addPrice
  split
  · exact h
  · dsimp only
    split
    · refine ⟨?_, fun _ => Or.inl rfl⟩
      intro hf
      exact Bool.noConfusion (show (true : Bool) = false from hf)
    · rename_i hnn
      exact chartOk_update _ price (not_not.mp hnn)

theorem chartOk_runPrices (b : ℚ) (m : ℕ) (ps : List ℚ) :
    chartOk (runPrices b m ps) := by
  unfold runPrices
  generalize hstart : mkChart b m = s0
  have h0 : chartOk s0 := by
    subst hstart
    exact ⟨fun _ => rfl, fun _ => Or.inl rfl⟩
  clear hstart
  induction ps generalizing s0 with
  | nil => exact h0
  | cons p t ih => exact ih _ (chartOk_addPrice s0 p h0)

/-- C10 (amended): (1) every `addPrice` call with a POSITIVE price that
does not finalize a brick (the price stays strictly inside the one-brick
band around the last finalized close) sets the current brick's
`isUp` to `false` — the up-branch compares the always-equal magnitudes
`|price − lastClose|` and `|lastClose − price|`; dropped non-positive
ticks leave the state, and hence possibly `isUp = true` with zero
completion, untouched.  (2) Consequently, on every chart reachable from a
fresh engine that holds at least one finalized brick, the partial brick
is never reported as forming up (`isUpBrickForming = false`). -/
theorem C10_partial_direction :
    (∀ (s : RenkoChart) (price : ℚ) (last : RenkoBrick),
      s.currentBrickInit = true → s.bricks.getLast? = some last →
      0 < price → last.close - s.brickSize < price →
      price < last.close + s.brickSize →
      (addPrice s price).currentBrick.isUp = false) ∧
    (∀ (b : ℚ) (m : ℕ) (ps : List ℚ),
      (runPrices b m ps).bricks ≠ [] →
      isUpBrickForming (runPrices b m ps) = false) := by
  constructor
  · intro s price last hinit hL hp hlo hhi
    rw [addPrice_of_init s price hp hinit]
    exact updateCurrentBrick_mid_isUp _ price last hL (not_le.mpr hhi) (not_le.mpr hlo)
  · intro b m ps hne
    have h := chartOk_runPrices b m ps
    have hnone : ¬ (runPrices b m ps).bricks.getLast? = none := by
      intro h0
      exact hne (List.getLast?_eq_none_iff.mp h0)
    unfold isUpBrickForming
    cases hup : (runPrices b m ps).currentBrick.isUp with
    | false => simp
    | true =>
        rcases h.2 hup with hc | hc
        · rw [hc]; simp
        · exact absurd hc hnone

/-- C10 witness: both parts of the amended statement at a concrete input
(chart fed `[100, 101]`, then a mid-band tick `101.2`). -/
theorem C10_partial_direction_witness :
    (addPrice (runPrices 1 1000 [100, 101]) (1012 / 10)).currentBrick.isUp = false ∧
    isUpBrickForming (runPrices 1 1000 [100, 101]) = false := by
  refine ⟨C10_partial_direction.1 (runPrices 1 1000 [100, 101]) (1012 / 10)
    (RenkoBrick.mk4 100 101 true) ?_ ?_ (by norm_num) ?_ ?_,
    C10_partial_direction.2 1 1000 [100, 101] ?_⟩ <;>
  norm_num [runPrices, addPrice, initCurrentBrick, updateCurrentBrick,
    finalizeBrick, maintainMaxBricks, mkChart, RenkoBrick.deflt, RenkoBrick.mk4]

/-! ### C3: the end-to-end scenario -/

/-- The spec's end-to-end price feed (brick size 0.0010):
1.1000, 1.0990, 1.0980, 1.0987. -/
def endToEndPrices : List ℚ := [11 / 10, 1099 / 1000, 549 / 500, 10987 / 10000]

/-- Chart state after the four scenario prices. -/
def endChart4 : RenkoChart := runPrices (1 / 1000) 1000 endToEndPrices

/-- Chart state after the fifth scenario price 1.0988. -/
def endChart5 : RenkoChart := addPrice endChart4 (2747 / 2500)

/-- C3 counterexample: after the fifth price 1.0988 the detector returns
`NONE`, not the Setup-1/Buy match the claim requires (the partial brick is
marked down by the always-false direction comparison, and only 2 bricks
are finalized while Setup 1 needs at least 3). -/
theorem C3_counterexample :
    (detectSetup1Pattern mkPatternDetector endChart5).type = PatternType.NONE ∧
    PatternType.NONE ≠ PatternType.SETUP_1_CONSECUTIVE := by
  constructor
  · norm_num [endChart5, endChart4, endToEndPrices, runPrices, addPrice,
      initCurrentBrick, updateCurrentBrick, finalizeBrick, maintainMaxBricks,
      mkChart, RenkoBrick.deflt, RenkoBrick.mk4, detectSetup1Pattern,
      mkPatternDetector, getLastNBricks, getBricks, PatternResult.none_]
  · intro h
    exact PatternType.noConfusion h

/-- C3 (amended): the four prices produce exactly 2 down bricks and a
partial brick with completion 0.7 but direction DOWN (not up as claimed),
so Setup 1 does not fire; after the fifth price 1.0988 the completion is
0.8, the direction is still down, and Setup 1 still does not fire (only
2 bricks are finalized; Setup 1 also needs at least 3). -/
theorem C3_end_to_end_actual :
    endChart4.bricks.map RenkoBrick.isUp = [false, false] ∧
    endChart4.currentBrick.completionPercent = 7 / 10 ∧
    endChart4.currentBrick.isUp = false ∧
    (detectSetup1Pattern mkPatternDetector endChart4).type = PatternType.NONE ∧
    endChart5.currentBrick.completionPercent = 4 / 5 ∧
    endChart5.currentBrick.isUp = false ∧
    (detectSetup1Pattern mkPatternDetector endChart5).type = PatternType.NONE := by
  norm_num [endChart5, endChart4, endToEndPrices, runPrices, addPrice,
    initCurrentBrick, updateCurrentBrick, finalizeBrick, maintainMaxBricks,
    mkChart, RenkoBrick.deflt, RenkoBrick.mk4, detectSetup1Pattern,
    mkPatternDetector, getLastNBricks, getBricks, PatternResult.none_,
    abs_of_pos, min_def, max_def]

/-! ### C2: the Setup-1 detector -/

theorem getLastNBricks5_length (s : RenkoChart) :
    (getLastNBricks s 5).length = min s.bricks.length 5 := by
  unfold getLastNBricks getBricks
  split
  · rename_i h
    rcases h with h | h
    · omega
    · omega
  · rename_i h
    push_neg at h
    rw [List.length_drop]
    omega

theorem getD_drop_last (l : List RenkoBrick) (k j : ℕ) (d : RenkoBrick)
    (hj : j ≤ k) (hkl : k ≤ l.length) :
    (l.drop (l.length - k)).getD ((l.drop (l.length - k)).length - j) d
      = l.getD (l.length - j) d := by
  rw [List.getD_eq_getElem?_getD, List.getD_eq_getElem?_getD, List.getElem?_drop,
      List.length_drop]
  congr 2
  omega

theorem getLastNBricks5_getD (s : RenkoChart) (j : ℕ) (d : RenkoBrick)
    (hj : j ≤ 5) :
    (getLastNBricks s 5).getD ((getLastNBricks s 5).length - j) d
      = s.bricks.getD (s.bricks.length - j) d := by
  unfold getLastNBricks getBricks
  split
  · rfl
  · rename_i h
    push_neg at h
    exact getD_drop_last s.bricks 5 j d hj (le_of_lt h.2)

/-- C2 counterexample input: three finalized bricks Down, Down, Up (the
MOST recent brick is up) and a current brick forming up at completion
0.8. -/
def chartC2 : RenkoChart :=
  { mkChart 1 1000 with
      bricks := [RenkoBrick.mk4 102 101 false, RenkoBrick.mk4 101 100 false,
                 RenkoBrick.mk4 100 101 true],
      currentBrick :=
        { open_ := 101, close := 101, high := 101, low := 101,
          isUp := true, completionPercent := 4 / 5 },
      currentBrickInit := true, lastPrice := 101 }

/-- C2 counterexample: `detectSetup1Pattern` checks the bricks at
positions `size−3` and `size−2` of the 5-brick window — i.e. the THIRD-
and SECOND-most-recent bricks — so on `[Down, Down, Up]` with a partial
up brick at 0.8 it fires even though the two most recent finalized bricks
are not both down (the most recent is up), refuting the claimed
if-and-only-if condition. -/
theorem C2_counterexample :
    (detectSetup1Pattern mkPatternDetector chartC2).type
      = PatternType.SETUP_1_CONSECUTIVE ∧
    (chartC2.bricks.getD (chartC2.bricks.length - 1) RenkoBrick.deflt).isUp
      = true := by
  norm_num [chartC2, detectSetup1Pattern, mkPatternDetector, getLastNBricks,
    getBricks, mkChart, RenkoBrick.deflt, RenkoBrick.mk4, PatternResult.none_]

/-- C2 (amended): `detectSetup1Pattern` returns a Setup-1 match iff at
least 3 finalized bricks exist, the THIRD- and SECOND-most-recent
finalized bricks are both down (the most recent one is not checked), and
the current brick is up with completion at least the threshold; every
match carries confidence 0.8 and side Buy. -/
theorem C2_detectSetup1_iff (pd : PatternDetector) (chart : RenkoChart) :
    ((detectSetup1Pattern pd chart).type = PatternType.SETUP_1_CONSECUTIVE ↔
      (3 ≤ chart.bricks.length ∧
       (chart.bricks.getD (chart.bricks.length - 3) RenkoBrick.deflt).isUp = false ∧
       (chart.bricks.getD (chart.bricks.length - 2) RenkoBrick.deflt).isUp = false ∧
       chart.currentBrick.isUp = true ∧
       pd.pbThreshold ≤ chart.currentBrick.completionPercent)) ∧
    ((detectSetup1Pattern pd chart).type = PatternType.SETUP_1_CONSECUTIVE →
      (detectSetup1Pattern pd chart).confidence = 4 / 5 ∧
      (detectSetup1Pattern pd chart).suggestedSide = OrderSide.BUY) := by
  have hlen := getLastNBricks5_length chart
  unfold detectSetup1Pattern
  dsimp only
  by_cases h3 : (getLastNBricks chart 5).length < 3
  · rw [if_pos h3]
    constructor
    · constructor
      · intro h
        exact absurd h (by simp [PatternResult.none_])
      · rintro ⟨h, -⟩
        omega
    · intro h
      exact absurd h (by simp [PatternResult.none_])
  · rw [if_neg h3]
    have hlen3 : 3 ≤ chart.bricks.length := by omega
    have hd3 := getLastNBricks5_getD chart 3 RenkoBrick.deflt (by omega)
    have hd2 := getLastNBricks5_getD chart 2 RenkoBrick.deflt (by omega)
    split
    · rename_i hc
      rw [Bool.and_eq_true, Bool.and_eq_true, Bool.and_eq_true] at hc
      obtain ⟨⟨hcd3, hcd2⟩, hcu, hct⟩ := hc
      refine ⟨⟨fun _ => ⟨hlen3, ?_, ?_, hcu, ?_⟩, fun _ => rfl⟩, fun _ => ⟨rfl, rfl⟩⟩
      · rw [← hd3]
        simpa using hcd3
      · rw [← hd2]
        simpa using hcd2
      · simpa [ge_iff_le] using of_decide_eq_true hct
    · rename_i hc
      constructor
      · constructor
        · intro h
          exact absurd h (by simp [PatternResult.none_])
        · rintro ⟨-, h1, h2, h4, h5⟩
          refine absurd ?_ hc
          rw [Bool.and_eq_true, Bool.and_eq_true, Bool.and_eq_true]
          refine ⟨⟨?_, ?_⟩, h4, ?_⟩
          · rw [hd3, Bool.not_eq_true']
            exact h1
          · rw [hd2, Bool.not_eq_true']
            exact h2
          · exact decide_eq_true (by simpa [ge_iff_le] using h5)
      · intro h
        exact absurd h (by simp [PatternResult.none_])

/-- C2 witness: the amended theorem applied at the concrete chart of the
counterexample, producing the confidence/side facts for its match. -/
theorem C2_detectSetup1_iff_witness :
    (detectSetup1Pattern mkPatternDetector chartC2).confidence = 4 / 5 ∧
    (detectSetup1Pattern mkPatternDetector chartC2).suggestedSide = OrderSide.BUY := by
  refine (C2_detectSetup1_iff mkPatternDetector chartC2).2 ?_
  norm_num [chartC2, detectSetup1Pattern, mkPatternDetector, getLastNBricks,
    getBricks, mkChart, RenkoBrick.deflt, RenkoBrick.mk4, PatternResult.none_]

/-! ### C4: emergency-stop supremacy -/

theorem calculateDrawdown_emergencyStop (s : RiskManager) (q : ℚ) :
    (calculateDrawdown s q).emergencyStop = s.emergencyStop := by
  unfold calculateDrawdown
  dsimp only
  split <;> split <;> rfl

theorem calculateDrawdown_currentStatus (s : RiskManager) (q : ℚ) :
    (calculateDrawdown s q).currentStatus = s.currentStatus := by
  unfold calculateDrawdown
  dsimp only
  split <;> split <;> rfl

theorem riskStep_stop_invariant (s : RiskManager) (ev : RiskEvent)
    (h1 : s.emergencyStop = true)
    (h2 : s.currentStatus = RiskStatus.LIMIT_REACHED ∨
          s.currentStatus = RiskStatus.PAPER_MODE) :
    (riskStep s ev).emergencyStop = true ∧
    ((riskStep s ev).currentStatus = RiskStatus.LIMIT_REACHED ∨
     (riskStep s ev).currentStatus = RiskStatus.PAPER_MODE) := by
  cases ev with
  | initRM p => exact ⟨h1, h2⟩
  | updateRiskParameters p => exact ⟨h1, h2⟩
  | recordTrade b =>
      unfold riskStep recordTrade
      dsimp only
      split
      · exact ⟨h1, h2⟩
      · split
        · exact ⟨h1, Or.inr rfl⟩
        · exact ⟨h1, h2⟩
  | resetConsecutiveCount => exact ⟨h1, h2⟩
  | performDailyReset => exact ⟨h1, h2⟩
  | switchToPaperMode => exact ⟨h1, Or.inr rfl⟩
  | switchToLiveMode => exact ⟨h1, h2⟩
  | enableEmergencyStop => exact ⟨rfl, Or.inl rfl⟩
  | calculateDrawdown q =>
      constructor
      · show (calculateDrawdown s q).emergencyStop = true
        rw [calculateDrawdown_emergencyStop]
        exact h1
      · show (calculateDrawdown s q).currentStatus = RiskStatus.LIMIT_REACHED ∨
            (calculateDrawdown s q).currentStatus = RiskStatus.PAPER_MODE
        rw [calculateDrawdown_currentStatus]
        exact h2
  | updateRiskStatus a ps =>
      unfold riskStep updateRiskStatus
      dsimp only
      have he : (calculateDrawdown s a.equity).emergencyStop = true := by
        rw [calculateDrawdown_emergencyStop]
        exact h1
      rw [if_pos he]
      exact ⟨he, Or.inl rfl⟩
  | startNewCounter =>
      unfold riskStep startNewCounter
      dsimp only
      split
      · exact ⟨h1, h2⟩
      · exact ⟨h1, h2⟩
  | addOrderToCounter o =>
      unfold riskStep addOrderToCounter completeCounter
      dsimp only
      split
      · exact ⟨h1, h2⟩
      · exact ⟨h1, h2⟩
  | completeCounter => exact ⟨h1, h2⟩

theorem riskRun_stop_invariant (s : RiskManager) (evs : List RiskEvent)
    (h1 : s.emergencyStop = true)
    (h2 : s.currentStatus = RiskStatus.LIMIT_REACHED ∨
          s.currentStatus = RiskStatus.PAPER_MODE) :
    (riskRun s evs).emergencyStop = true ∧
    ((riskRun s evs).currentStatus = RiskStatus.LIMIT_REACHED ∨
     (riskRun s evs).currentStatus = RiskStatus.PAPER_MODE) := by
  induction evs generalizing s with
  | nil => exact ⟨h1, h2⟩
  | cons ev t ih =>
      have hstep := riskStep_stop_invariant s ev h1 h2
      exact ih (riskStep s ev) hstep.1 hstep.2

/-- C4 counterexample: from the freshly constructed risk manager, calling
`enableEmergencyStop` and then `switchToPaperMode` (without ever calling
`disableEmergencyStop`) leaves the status at `PAPER_MODE`, not
`LIMIT_REACHED`, while the stop flag is still set. -/
theorem C4_counterexample :
    getCurrentRiskStatus
        (riskRun (enableEmergencyStop mkRiskManager) [RiskEvent.switchToPaperMode])
      = RiskStatus.PAPER_MODE ∧
    (riskRun (enableEmergencyStop mkRiskManager)
        [RiskEvent.switchToPaperMode]).emergencyStop = true ∧
    RiskStatus.PAPER_MODE ≠ RiskStatus.LIMIT_REACHED := by
  refine ⟨rfl, rfl, ?_⟩
  intro h
  exact RiskStatus.noConfusion h

/-- C4 (amended): after `enable_emergency_stop`, for as long as
`disable_emergency_stop` has not been called (any sequence of the other
mutating calls), `validate_order` returns `false` for every input and the
stop flag stays set; the status is `LimitReached` immediately after the
call and can only be `LimitReached` or `PaperMode` thereafter —
`switch_to_paper_mode` (including the automatic switch inside a losing
`record_trade`) overwrites it with `PaperMode` despite the active stop. -/
theorem C4_emergency_stop_supremacy (s0 : RiskManager) (evs : List RiskEvent)
    (order : Order) (account : AccountInfo) (positions : List Position) :
    validateOrder (riskRun (enableEmergencyStop s0) evs) order account positions
      = false ∧
    (riskRun (enableEmergencyStop s0) evs).emergencyStop = true ∧
    ((riskRun (enableEmergencyStop s0) evs).currentStatus
        = RiskStatus.LIMIT_REACHED ∨
     (riskRun (enableEmergencyStop s0) evs).currentStatus
        = RiskStatus.PAPER_MODE) ∧
    getCurrentRiskStatus (enableEmergencyStop s0) = RiskStatus.LIMIT_REACHED := by
  have h := riskRun_stop_invariant (enableEmergencyStop s0) evs rfl (Or.inl rfl)
  refine ⟨?_, h.1, h.2, rfl⟩
  unfold validateOrder
  rw [if_pos h.1]

/-! ### C5: consecutive-loss auto paper mode -/

/-- `n` successive losing `recordTrade` calls. -/
def recordLosses : RiskManager → ℕ → RiskManager
  | s, 0 => s
  | s, n + 1 => recordLosses (recordTrade s false) n

theorem recordLosses_snoc (s : RiskManager) (n : ℕ) :
    recordLosses s (n + 1) = recordTrade (recordLosses s n) false := by
  induction n generalizing s with
  | zero => rfl
  | succ k ih =>
      show recordLosses (recordTrade s false) (k + 1)
        = recordTrade (recordLosses s (k + 1)) false
      rw [ih (recordTrade s false)]
      rfl

theorem recordTrade_false_fields (s : RiskManager) :
    (recordTrade s false).consecutiveLosses = s.consecutiveLosses + 1 ∧
    (recordTrade s false).consecutiveWins = 0 ∧
    (recordTrade s false).maxConsecutiveLosses
      = max s.maxConsecutiveLosses (s.consecutiveLosses + 1) ∧
    (recordTrade s false).params = s.params ∧
    (recordTrade s false).paperMode
      = (s.paperMode ||
         decide (s.consecutiveLosses + 1 ≥ s.params.consecutiveLossLimit)) := by
  unfold recordTrade shouldSwitchToPaperMode switchToPaperMode
  dsimp only
  rw [if_neg (by simp)]
  refine ⟨?_, ?_, ?_, ?_, ?_⟩
  · split <;> rfl
  · split <;> rfl
  · split <;> rfl
  · split <;> rfl
  · split
    · rename_i hcond
      rw [Bool.and_eq_true, Bool.not_eq_true'] at hcond
      rw [hcond.2, hcond.1]
      rfl
    · rename_i hcond
      rw [Bool.and_eq_true] at hcond
      push_neg at hcond
      by_cases hp : s.paperMode = true
      · rw [hp]
        rfl
      · rw [Bool.not_eq_true] at hp
        rw [hp]
        have hd : decide (s.consecutiveLosses + 1 ≥ s.params.consecutiveLossLimit)
            = false := by
          by_contra hdc
          rw [Bool.not_eq_false] at hdc
          have := hcond hdc
          rw [hp] at this
          exact this rfl
        rw [hd]
        rfl

theorem recordLosses_below (n : ℕ) :
    ∀ s : RiskManager, s.paperMode = false →
    (s.consecutiveLosses + n : ℤ) < s.params.consecutiveLossLimit →
    (recordLosses s n).paperMode = false ∧
    (recordLosses s n).consecutiveLosses = s.consecutiveLosses + n ∧
    (recordLosses s n).params = s.params := by
  induction n with
  | zero =>
      intro s h _
      exact ⟨h, by simp [recordLosses], rfl⟩
  | succ k ih =>
      intro s h hlt
      have hf := recordTrade_false_fields s
      have hp : (recordTrade s false).paperMode = false := by
        rw [hf.2.2.2.2, h, Bool.false_or, decide_eq_false]
        push_cast at hlt
        omega
      have hrec := ih (recordTrade s false) hp (by
        rw [hf.1, hf.2.2.2.1]
        push_cast at hlt ⊢
        omega)
      have hstep : recordLosses s (k + 1) = recordLosses (recordTrade s false) k := rfl
      refine ⟨?_, ?_, ?_⟩
      · rw [hstep]
        exact hrec.1
      · rw [hstep, hrec.2.1, hf.1]
        push_cast
        ring
      · rw [hstep, hrec.2.2, hf.2.2.2.1]

/-- C5: from a live state with a zero loss streak, exactly
`consecutive_loss_limit` losing `record_trade` calls switch the engine to
paper mode; each losing call bumps `consecutive_losses`, zeroes
`consecutive_wins` and refreshes `max_consecutive_losses` to the running
maximum. -/
theorem C5_consecutive_loss_auto_paper (s : RiskManager) (n : ℕ)
    (hpm : s.paperMode = false) (hcl : s.consecutiveLosses = 0)
    (hn : (n : ℤ) = s.params.consecutiveLossLimit) (h1 : 1 ≤ n) :
    isPaperMode (recordLosses s n) = true ∧
    (∀ t : RiskManager,
      (recordTrade t false).consecutiveLosses = t.consecutiveLosses + 1 ∧
      (recordTrade t false).consecutiveWins = 0 ∧
      (recordTrade t false).maxConsecutiveLosses
        = max t.maxConsecutiveLosses (t.consecutiveLosses + 1)) := by
  constructor
  · obtain ⟨m, rfl⟩ : ∃ m, n = m + 1 := ⟨n - 1, by omega⟩
    have haux := recordLosses_below m s hpm (by
      rw [hcl]
      push_cast at hn
      omega)
    rw [isPaperMode, recordLosses_snoc]
    have hf := recordTrade_false_fields (recordLosses s m)
    rw [hf.2.2.2.2, haux.1, Bool.false_or]
    apply decide_eq_true
    rw [haux.2.1, haux.2.2, hcl]
    push_cast at hn
    omega
  · intro t
    have hf := recordTrade_false_fields t
    exact ⟨hf.1, hf.2.1, hf.2.2.1⟩

/-- C5 witness: the default risk manager (loss limit 2, live mode) is in
paper mode after exactly 2 losing trades. -/
theorem C5_consecutive_loss_auto_paper_witness :
    isPaperMode (recordLosses mkRiskManager 2) = true :=
  (C5_consecutive_loss_auto_paper mkRiskManager 2
    (by norm_num [mkRiskManager])
    (by norm_num [mkRiskManager])
    (by norm_num [mkRiskManager, RiskParameters.deflt])
    (by norm_num)).1

/-! ### C6: the validation gate -/

/-- C6: `validate_order` rejects exactly when the emergency stop is set,
the daily risk budget is exhausted (`daily_risk_used ≥ equity ×
daily_risk_percent`), or the drawdown has reached its limit; it is a pure
function of the state (the embedding returns only the boolean, mirroring
the `const` C++ method that never mutates state). -/
theorem C6_validateOrder_iff (s : RiskManager) (order : Order)
    (account : AccountInfo) (positions : List Position) :
    validateOrder s order account positions = false ↔
      (s.emergencyStop = true ∨
       account.equity * s.params.dailyRiskPercent ≤ s.dailyRiskUsed ∨
       s.params.maxDrawdownPercent ≤ s.currentDrawdown) := by
  by_cases h1 : s.emergencyStop = true
  · unfold validateOrder
    rw [if_pos h1]
    simp [h1]
  · rw [Bool.not_eq_true] at h1
    unfold validateOrder isWithinDailyRiskLimit isWithinDrawdownLimit
    rw [if_neg (by simp [h1])]
    by_cases h2 : s.dailyRiskUsed < account.equity * s.params.dailyRiskPercent
    · rw [if_neg (by simp [h2])]
      by_cases h3 : s.currentDrawdown < s.params.maxDrawdownPercent
      · rw [if_neg (by simp [h3])]
        constructor
        · intro habs
          exact Bool.noConfusion habs
        · rintro (h | h | h)
          · rw [h1] at h
            exact Bool.noConfusion h
          · exact absurd h2 (not_lt.mpr h)
          · exact absurd h3 (not_lt.mpr h)
      · rw [if_pos (by simp [h3])]
        exact ⟨fun _ => Or.inr (Or.inr (not_lt.mp h3)), fun _ => rfl⟩
    · rw [if_pos (by simp [h2])]
      exact ⟨fun _ => Or.inr (Or.inl (not_lt.mp h2)), fun _ => rfl⟩

/-! ### C7: position sizing -/

/-- C7 counterexample input: `min_lot_size = 1` exceeds 10% of the
1-unit equity. -/
def rmC7 : RiskManager :=
  { mkRiskManager with params := { RiskParameters.deflt with minLotSize := 1 } }

/-- C7 counterexample: with equity 1, `min_lot_size = 1` and a stop
distance of 1, the floor is applied before the 10%-of-equity cap, so the
result is 0.1 < `min_lot_size`, violating the claimed lower bound. -/
theorem C7_counterexample :
    calculatePositionSize rmC7 ⟨1, 0⟩ ⟨1, 1, 1, 1⟩ ⟨1⟩ = 1 / 10 ∧
    ¬ ((rmC7.params.minLotSize : ℚ) ≤ 1 / 10) := by
  constructor
  · norm_num [calculatePositionSize, rmC7, mkRiskManager, RiskParameters.deflt,
      min_def, max_def]
  · norm_num [rmC7, RiskParameters.deflt]

/-- C7 (amended): sizing returns 0 when the stop distance is zero;
otherwise it returns `min(max(risk/(dist × tick), min_lot_size),
0.1 × equity)` — the floor is applied before the cap, so the claimed
bounds `min_lot_size ≤ result ≤ 0.1 × equity` hold exactly when
`min_lot_size ≤ 0.1 × equity`. -/
theorem C7_position_size (s : RiskManager) (signal : TradingSignal)
    (account : AccountInfo) (instrument : InstrumentSpec)
    (_htv : 0 < instrument.tickValue) :
    (|signal.entryPrice - signal.stopLoss| ≤ 0 →
      calculatePositionSize s signal account instrument = 0) ∧
    (0 < |signal.entryPrice - signal.stopLoss| →
      calculatePositionSize s signal account instrument =
        min (max (account.equity * s.params.dailyRiskPercent /
              (|signal.entryPrice - signal.stopLoss| * instrument.tickValue))
            s.params.minLotSize)
          (account.equity * (1 / 10)) ∧
      (s.params.minLotSize ≤ account.equity * (1 / 10) →
        s.params.minLotSize ≤ calculatePositionSize s signal account instrument ∧
        calculatePositionSize s signal account instrument
          ≤ account.equity * (1 / 10))) := by
  unfold calculatePositionSize
  constructor
  · intro h
    rw [if_pos h]
  · intro h
    rw [if_neg (not_le.mpr h)]
    dsimp only
    refine ⟨rfl, fun hml => ⟨?_, ?_⟩⟩
    · exact le_min (le_max_right _ _) hml
    · exact min_le_right _ _

/-- C7 witness: the amended theorem at equity 1, entry 2, stop 1,
tick value 1 (stop distance 1, `min_lot_size = 0.01 ≤ 0.1`). -/
theorem C7_position_size_witness :
    (1 : ℚ) / 100 ≤ calculatePositionSize mkRiskManager ⟨2, 1⟩ ⟨1, 1, 1, 1⟩ ⟨1⟩ ∧
    calculatePositionSize mkRiskManager ⟨2, 1⟩ ⟨1, 1, 1, 1⟩ ⟨1⟩ ≤ 1 * (1 / 10) := by
  have h := ((C7_position_size mkRiskManager ⟨2, 1⟩ ⟨1, 1, 1, 1⟩ ⟨1⟩
    (by norm_num)).2 (by norm_num)).2
    (by norm_num [mkRiskManager, RiskParameters.deflt])
  simpa [mkRiskManager, RiskParameters.deflt] using h

/-! ### C8: the counter lifecycle -/

theorem addOrderToCounter_no_complete (s : RiskManager) (o : Order)
    (h : ¬ s.currentCounter.ordersCount + 1 ≥ s.params.ordersPerCounter) :
    (addOrderToCounter s o).currentCounter.isComplete
        = s.currentCounter.isComplete ∧
    (addOrderToCounter s o).currentCounter.ordersCount
        = s.currentCounter.ordersCount + 1 ∧
    (addOrderToCounter s o).params = s.params ∧
    (addOrderToCounter s o).completedCounters = s.completedCounters := by
  unfold addOrderToCounter
  dsimp only
  rw [if_neg h]
  exact ⟨rfl, rfl, rfl, rfl⟩

theorem addOrderToCounter_completes (s : RiskManager) (o : Order)
    (h : s.currentCounter.ordersCount + 1 ≥ s.params.ordersPerCounter) :
    (addOrderToCounter s o).currentCounter.isComplete = true ∧
    (addOrderToCounter s o).completedCounters.length
        = s.completedCounters.length + 1 := by
  unfold addOrderToCounter completeCounter
  dsimp only
  rw [if_pos h]
  exact ⟨rfl, by simp⟩

theorem addOrders_below (os : List Order) :
    ∀ s : RiskManager, s.currentCounter.isComplete = false →
    (s.currentCounter.ordersCount + os.length : ℤ) < s.params.ordersPerCounter →
    (os.foldl addOrderToCounter s).currentCounter.isComplete = false ∧
    (os.foldl addOrderToCounter s).currentCounter.ordersCount
        = s.currentCounter.ordersCount + os.length ∧
    (os.foldl addOrderToCounter s).params = s.params ∧
    (os.foldl addOrderToCounter s).completedCounters = s.completedCounters := by
  induction os with
  | nil =>
      intro s h _
      exact ⟨h, by simp, rfl, rfl⟩
  | cons o t ih =>
      intro s h hlt
      simp only [List.length_cons] at hlt
      push_cast at hlt
      have hno := addOrderToCounter_no_complete s o (by omega)
      have hrec := ih (addOrderToCounter s o)
        (by rw [hno.1]; exact h)
        (by rw [hno.2.1, hno.2.2.1]; omega)
      have hstep : (o :: t).foldl addOrderToCounter s
          = t.foldl addOrderToCounter (addOrderToCounter s o) := rfl
      refine ⟨?_, ?_, ?_, ?_⟩
      · rw [hstep, hrec.1]
      · rw [hstep, hrec.2.1, hno.2.1]
        simp only [List.length_cons]
        push_cast
        ring
      · rw [hstep, hrec.2.2.1, hno.2.2.1]
      · rw [hstep, hrec.2.2.2, hno.2.2.2]

/-- C8: from a fresh (empty, not complete) current counter, exactly
`orders_per_counter` calls to `add_order_to_counter` complete it and
archive it (completed list grows by one), and a subsequent
`start_new_counter` numbers the new counter `N + 1` where `N` is the
number of completed counters. -/
theorem C8_counter_lifecycle (s : RiskManager) (os : List Order)
    (h0 : s.currentCounter.ordersCount = 0)
    (hic : s.currentCounter.isComplete = false)
    (hlen : (os.length : ℤ) = s.params.ordersPerCounter) (h1 : os ≠ []) :
    isCounterComplete (os.foldl addOrderToCounter s) = true ∧
    (os.foldl addOrderToCounter s).completedCounters.length
        = s.completedCounters.length + 1 ∧
    (startNewCounter (os.foldl addOrderToCounter s)).currentCounter.counterNumber
        = ((os.foldl addOrderToCounter s).completedCounters.length : ℤ) + 1 := by
  obtain ⟨t, o, rfl⟩ : ∃ t o, os = t ++ [o] :=
    ⟨os.dropLast, os.getLast h1, (List.dropLast_append_getLast h1).symm⟩
  simp only [List.length_append, List.length_singleton] at hlen
  push_cast at hlen
  have haux := addOrders_below t s hic (by rw [h0]; omega)
  rw [List.foldl_append]
  have hlast : [o].foldl addOrderToCounter (t.foldl addOrderToCounter s)
      = addOrderToCounter (t.foldl addOrderToCounter s) o := rfl
  rw [hlast]
  have hcomp := addOrderToCounter_completes (t.foldl addOrderToCounter s) o (by
    rw [haux.2.1, haux.2.2.1, h0]
    omega)
  refine ⟨hcomp.1, ?_, ?_⟩
  · rw [hcomp.2, haux.2.2.2]
  · unfold startNewCounter
    rw [if_pos (by rw [hcomp.1]; simp)]

/-- C8 witness: orders-per-counter 2, two orders added to the default
(fresh) counter. -/
theorem C8_counter_lifecycle_witness :
    isCounterComplete ([(⟨1, 1⟩ : Order), ⟨2, 1⟩].foldl addOrderToCounter
        { mkRiskManager with
            params := { RiskParameters.deflt with ordersPerCounter := 2 } })
      = true :=
  (C8_counter_lifecycle
    { mkRiskManager with
        params := { RiskParameters.deflt with ordersPerCounter := 2 } }
    [⟨1, 1⟩, ⟨2, 1⟩]
    (by norm_num [mkRiskManager, TradingCounter.deflt])
    (by norm_num [mkRiskManager, TradingCounter.deflt])
    (by norm_num [mkRiskManager, RiskParameters.deflt])
    (by simp)).1

end MasterMind
